import Mathlib

/-!
Shallow embedding of `backend/open_webui/utils/executor.py` (`execute_code`):
a sandboxed code runner that launches untrusted code inside a Docker
container, with per-session persistent workspaces.

The Python function is effectful: it talks to the Docker daemon and to the
filesystem.  We embed it as a deterministic Lean function of an explicit
`Oracle` that fixes the outcome of every external call the function makes
(image lookup and pull, container run/wait/kill/logs/remove, prune), and of
an explicit filesystem state (a list of existing directories).  Python
exception propagation is modelled by the `Res`/`PyOutcome` types; the
`try/except/finally` structure of the source is translated clause by clause.
-/

namespace Executor

/-- Kinds of Python exceptions distinguished by the `except` clauses of
`execute_code` (`requests.ReadTimeout`, `docker.errors.ContainerError`,
`docker.errors.APIError`, `docker.errors.ImageNotFound` — a subclass of
`APIError` — and the catch-all `Exception`). -/
inductive Exc where
  | readTimeout : Exc
  | containerError (exit_status : Int) (msg : String) : Exc
  | imageNotFound (msg : String) : Exc
  | apiError (msg : String) : Exc
  | otherExc (msg : String) : Exc
deriving DecidableEq

/-- Outcome of one external (Docker / requests) call: a value, or a raised
Python exception. -/
inductive Res (α : Type) where
  | ok (a : α) : Res α
  | exc (e : Exc) : Res α
deriving DecidableEq

/-- `true` iff the call completed without raising. -/
def resOk {α : Type} : Res α → Bool
  | .ok _ => true
  | .exc _ => false

/-- One call's external world: the outcome of each Docker/filesystem
operation `execute_code` may perform, in program order.  `wait` returns the
optional `StatusCode` entry of the dict `container.wait` produced; `logsOut`
and `logsErr` are the two `container.logs` fetches already decoded with
`errors="replace"` (which never raises, so decoding itself is total). -/
structure Oracle where
  imagesGet : Res Unit
  imagesPull : Res Unit
  run : Res Unit
  wait : Res (Option Int)
  kill : Res Unit
  logsOut : Res String
  logsErr : Res String
  remove : Res Unit
  prune : Res Unit
  chmodOk : Bool
deriving DecidableEq

/-- Python `x or default` for an optional string argument: `None` and the
empty string are falsy and yield the default. -/
def pyOrStr (x : Option String) (default : String) : String :=
  match x with
  | none => default
  | some s => if s = "" then default else s

/-- Python `str.lower()`: lower-case every character (the language tags
involved are ASCII, for which `Char.toLower` agrees with Python). -/
def pyLower (s : String) : String :=
  ⟨s.data.map Char.toLower⟩

/-- `DEFAULT_TIMEOUT = 10  # seconds`. -/
def DEFAULT_TIMEOUT : Nat := 10

/-- `LANG_CONFIG`: language tag ↦ (image, base command), as an association
list in source order. -/
def LANG_CONFIG : List (String × String × List String) :=
  [ ("python", ("python:3.11-slim", ["python", "-c"])),
    ("javascript", ("node:20-slim", ["node", "-e"])),
    ("js", ("node:20-slim", ["node", "-e"])),
    ("node", ("node:20-slim", ["node", "-e"])),
    ("go", ("golang:1.21-alpine", ["sh", "-c"])),
    ("bash", ("alpine:latest", ["sh", "-c"])),
    ("shell", ("alpine:latest", ["sh", "-c"])) ]

/-- `LANG_CONFIG.get(lang, LANG_CONFIG["python"])`. -/
def langConfigGet (lang : String) : String × List String :=
  match LANG_CONFIG.lookup lang with
  | some p => p
  | none => ("python:3.11-slim", ["python", "-c"])

/-- The (image, base command) pair `execute_code` resolves from its
`language` argument: `lang = (language or "python").lower()` followed by the
`LANG_CONFIG` lookup with python fallback. -/
def resolveProfile (language : Option String) : String × List String :=
  langConfigGet (pyLower (pyOrStr language "python"))

/-- `SANDBOX_ROOT = Path("backend/data/sandboxes")`, rendered as a string. -/
def SANDBOX_ROOT : String := "backend/data/sandboxes"

/-- `session_path = SANDBOX_ROOT / (session_id or "default")`. -/
def workspacePath (session_id : Option String) : String :=
  SANDBOX_ROOT ++ "/" ++ pyOrStr session_id "default"

/-- `session_path.mkdir(parents=True, exist_ok=True)` over a filesystem
modelled as the list of existing directories: idempotent creation, never an
error when the directory already exists.  Returns the resolved path and the
new filesystem. -/
def ensureWorkspace (fs : List String) (session_id : Option String) :
    String × List String :=
  let p := workspacePath session_id
  (p, if p ∈ fs then fs else p :: fs)

/-- The `runner` heredoc script built for `lang == "go"` (the `\x27` escapes
are the single-quote characters around the heredoc delimiter). -/
def goScript (code : String) : String :=
  "cat <<\x27EOF\x27 >/workspace/main.go\n" ++ (code ++ "\n") ++ "EOF\n" ++
    "cd /workspace && go run /workspace/main.go"

/-- The `cmd` the container is launched with, per the `if/elif/else` chain of
`execute_code` (both the `-e` branch and the final `else` produce
`[*base_cmd, code]`, exactly as in the source). -/
def buildCmd (lang : String) (base_cmd : List String) (code : String) :
    List String :=
  if lang = "go" then ["sh", "-c", goScript code]
  else if lang = "bash" ∨ lang = "shell" then ["sh", "-c", code]
  else if base_cmd.getLast? = some "-e" then base_cmd ++ [code]
  else base_cmd ++ [code]

/-- `_ensure_image`: `images.get`, and on `ImageNotFound` (only) a pull;
any other exception, and a failed pull, propagate. -/
def ensureImage (o : Oracle) : Res Unit :=
  match o.imagesGet with
  | .ok _ => .ok ()
  | .exc (.imageNotFound _) => o.imagesPull
  | .exc e => .exc e

/-- Where the `try` body of `execute_code` ends up: `done sc` means
`container.wait` returned and `sc` is its optional `StatusCode` entry
(`container` is set by then); `raised e c` means exception `e` escaped the
body with `container` bound (`c = true`) or still `None` (`c = false`). -/
inductive BodyOut where
  | done (statusCode : Option Int) : BodyOut
  | raised (e : Exc) (container : Bool) : BodyOut
deriving DecidableEq

/-- The `try` body: `_ensure_image`, then `containers.run` (which binds
`container` on success), then `container.wait(timeout=timeout)` and
`exit_code = result.get("StatusCode", -1)`. -/
def tryBody (o : Oracle) : BodyOut :=
  match ensureImage o with
  | .exc e => .raised e false
  | .ok _ =>
    match o.run with
    | .exc e => .raised e false
    | .ok _ =>
      match o.wait with
      | .exc e => .raised e true
      | .ok sc => .done sc

/-- State of the local variables after the `try/except` chain:
`container`, `timed_out`, `stderr`, `exit_code`, plus whether the
`ReadTimeout` handler issued `container.kill()` (a best-effort call whose
own failure is caught and logged). -/
structure MidState where
  container : Bool
  timed_out : Bool
  stderr : String
  exit_code : Option Int
  killIssued : Bool
deriving DecidableEq

/-- The `except` chain: `ReadTimeout` sets `timed_out`, `exit_code = 124`
and kills the container if one exists; `ContainerError` records its exit
status and message; `APIError` (including `ImageNotFound`) yields -1 and a
`Docker API error:` message; the catch-all yields -1 and an
`Unhandled error:` message.  `result.get("StatusCode", -1)` is the `getD`. -/
def handleExc : BodyOut → MidState
  | .done sc => ⟨true, false, "", some (sc.getD (-1)), false⟩
  | .raised .readTimeout c => ⟨c, true, "", some 124, c⟩
  | .raised (.containerError st msg) c => ⟨c, false, msg, some st, false⟩
  | .raised (.imageNotFound msg) c =>
      ⟨c, false, "Docker API error: " ++ msg, some (-1), false⟩
  | .raised (.apiError msg) c =>
      ⟨c, false, "Docker API error: " ++ msg, some (-1), false⟩
  | .raised (.otherExc msg) c =>
      ⟨c, false, "Unhandled error: " ++ msg, some (-1), false⟩

/-- `(stderr + "\n" if stderr else "") + new`. -/
def appendNL (stderr new : String) : String :=
  (if stderr = "" then "" else stderr ++ "\n") ++ new

/-- `f"Execution timed out after {timeout}s."`. -/
def timeoutNotice (timeout : Nat) : String :=
  "Execution timed out after " ++ toString timeout ++ "s."

/-- Whitespace characters stripped by Python `str.strip()` (the ASCII
ones; all strings the executor strips are ASCII-boundary). -/
def isWS (c : Char) : Bool :=
  c = ' ' ∨ c = '\t' ∨ c = '\n' ∨ c = '\r' ∨ c = '\x0b' ∨ c = '\x0c'

/-- Python `str.strip()`: drop whitespace from both ends. -/
def pyStrip (s : String) : String :=
  ⟨((s.data.dropWhile isWS).reverse.dropWhile isWS).reverse⟩

/-- The normal return value of `execute_code` (`stdout`, `stderr`,
`exit_code` keys of the returned dict). -/
structure ExecResult where
  stdout : String
  stderr : String
  exit_code : Int
deriving DecidableEq

/-- How a call to `execute_code` ends at the public boundary: a returned
result dict, or a Python exception propagating to the caller. -/
inductive PyOutcome where
  | ret (r : ExecResult) : PyOutcome
  | raise (e : Exc) : PyOutcome
deriving DecidableEq

/-- Everything observable about one call: its outcome plus the lifecycle
trace the claims talk about — whether a container was created, whether
`kill` / `remove(force=True)` / `prune` were issued, whether the removal
succeeded, the command the container was (to be) launched with, and the
filesystem after the call. -/
structure CallRecord where
  outcome : PyOutcome
  containerCreated : Bool
  killIssued : Bool
  removeIssued : Bool
  removeSucceeded : Bool
  pruneIssued : Bool
  launchCmd : Option (List String)
  fsAfter : List String
deriving DecidableEq

/-- `execute_code(code, language, timeout, session_id)` against oracle `o`
and filesystem `fs`, translated clause by clause from the source:
resolve the profile and workspace; run the `try` body and `except` chain
(`tryBody` / `handleExc`); then the finalization `try/finally`: fetch both
log streams if a container exists (an exception here runs the `finally`
block and then propagates to the caller — there is no `except` on this
`try`), and in `finally` force-remove the container (best-effort) and prune
exited containers; finally append the timeout notice if `timed_out` and
return the dict with both streams stripped and `exit_code` defaulted
to -1. -/
def execute_code (o : Oracle) (fs : List String) (code : String)
    (language : Option String := some "python")
    (timeout : Nat := DEFAULT_TIMEOUT)
    (session_id : Option String := none) : CallRecord :=
  let lang := pyLower (pyOrStr language "python")
  let profile := langConfigGet lang
  let base_cmd := profile.2
  let ws := ensureWorkspace fs session_id
  let fsA := ws.2
  let launched : Option (List String) :=
    match ensureImage o with
    | .ok _ => some (buildCmd lang base_cmd code)
    | .exc _ => none
  let m := handleExc (tryBody o)
  if m.container then
    match o.logsOut with
    | .exc e => ⟨.raise e, true, m.killIssued, true,
        resOk o.remove, true, launched, fsA⟩
    | .ok outS =>
      match o.logsErr with
      | .exc e => ⟨.raise e, true, m.killIssued, true,
          resOk o.remove, true, launched, fsA⟩
      | .ok errS =>
        let stdout := outS
        let stderr1 := appendNL m.stderr errS
        let stderr2 :=
          if m.timed_out then appendNL stderr1 (timeoutNotice timeout)
          else stderr1
        ⟨.ret ⟨pyStrip stdout, pyStrip stderr2, m.exit_code.getD (-1)⟩,
          true, m.killIssued, true, resOk o.remove, true, launched, fsA⟩
  else
    let stderr2 :=
      if m.timed_out then appendNL m.stderr (timeoutNotice timeout)
      else m.stderr
    ⟨.ret ⟨pyStrip "", pyStrip stderr2, m.exit_code.getD (-1)⟩,
      false, m.killIssued, false, false, true, launched, fsA⟩

/-- The exit status recorded by the time the function assembles its result
(the value of the local `exit_code` after the `try/except` chain). -/
def recordedExitCode (o : Oracle) : Option Int :=
  (handleExc (tryBody o)).exit_code

/-- An oracle on which every external call succeeds: the image is cached,
the container runs and exits with status 0, both log streams are empty. -/
def oracleAllOk : Oracle :=
  ⟨.ok (), .ok (), .ok (), .ok (some 0), .ok (), .ok "", .ok "", .ok (),
    .ok (), true⟩

/-- All calls succeed except the final `container.remove(force=True)`,
which the daemon refuses. -/
def oracleRemoveFails : Oracle :=
  ⟨.ok (), .ok (), .ok (), .ok (some 0), .ok (), .ok "", .ok "",
    .exc (.apiError "removal refused"), .ok (), true⟩

/-- All calls succeed except the `container.logs(stdout=True, ...)` fetch
in the finalization block, which raises an `APIError`. -/
def oracleLogsFail : Oracle :=
  ⟨.ok (), .ok (), .ok (), .ok (some 0), .ok (),
    .exc (.apiError "log fetch failed"), .ok "", .ok (), .ok (), true⟩

/-- The container launches, then `container.wait` raises an `APIError`
(control-plane failure) while the program has already written `prog` to its
stderr stream. -/
def oracleInfraWait : Oracle :=
  ⟨.ok (), .ok (), .ok (), .exc (.apiError "E"), .ok (), .ok "",
    .ok "prog", .ok (), .ok (), true⟩

/-- The container launches and `container.wait` times out (`ReadTimeout`)
while the program has already written `boom` to its stderr stream. -/
def oracleTimeout : Oracle :=
  ⟨.ok (), .ok (), .ok (), .exc .readTimeout, .ok (), .ok "",
    .ok "boom", .ok (), .ok (), true⟩

/-- The container runs to natural exit with status 3 and stderr `trace`. -/
def oracleExit3 : Oracle :=
  ⟨.ok (), .ok (), .ok (), .ok (some 3), .ok (), .ok "",
    .ok "trace", .ok (), .ok (), true⟩

/-- `container.wait` raises an exception outside the Docker hierarchy,
exercising the catch-all `except Exception` clause. -/
def oracleUnhandled : Oracle :=
  ⟨.ok (), .ok (), .ok (), .exc (.otherExc "surprise"), .ok (), .ok "",
    .ok "", .ok (), .ok (), true⟩

/-- `s` carries no leading and no trailing whitespace — what the spec means
by "trimmed of surrounding whitespace". -/
def noEdgeWS (s : String) : Prop :=
  (∀ c, s.data.head? = some c → isWS c = false) ∧
  (∀ c, s.data.getLast? = some c → isWS c = false)

/-- Split a character list into newline-separated lines (accumulator holds
the current line reversed).  Used only to model how `sh` reads the heredoc
script the executor builds for Go. -/
def splitLinesAux : List Char → List Char → List String
  | [], acc => [String.mk acc.reverse]
  | c :: rest, acc =>
    if c = '\n' then String.mk acc.reverse :: splitLinesAux rest []
    else splitLinesAux rest (c :: acc)

/-- The newline-separated lines of `s`. -/
def splitLines (s : String) : List String :=
  splitLinesAux s.data []

/-- Join lines back with newlines (inverse of `splitLines`). -/
def joinLines : List String → String
  | [] => ""
  | [l] => l
  | l₁ :: l₂ :: ls => l₁ ++ "\n" ++ joinLines (l₂ :: ls)

/-- Model of how `sh -c` interprets the one script shape the executor emits
for Go: the first line is the `cat` redirection into `/workspace/main.go`,
and every following line up to (not including) the first line equal to the
quoted delimiter `EOF` becomes the content written to that file. -/
def heredocWritten (script : String) : String :=
  joinLines (((splitLines script).drop 1).takeWhile (fun l => decide (l ≠ "EOF")))

/-! ### Helper lemmas -/

theorem head_dropWhile_false (p : Char → Bool) :
    ∀ (l : List Char) (c : Char), (l.dropWhile p).head? = some c → p c = false := by
  intro l
  induction l with
  | nil => intro c h; simp [List.dropWhile] at h
  | cons a t ih =>
    intro c h
    rw [List.dropWhile_cons] at h
    by_cases hp : p a = true
    · rw [if_pos hp] at h
      exact ih c h
    · rw [if_neg hp] at h
      simp only [List.head?_cons, Option.some.injEq] at h
      subst h
      exact Bool.not_eq_true _ ▸ Bool.of_not_eq_true hp

theorem pyStrip_data (s : String) :
    (pyStrip s).data = ((s.data.dropWhile isWS).reverse.dropWhile isWS).reverse := rfl

theorem pyStrip_noEdgeWS (s : String) : noEdgeWS (pyStrip s) := by
  constructor
  · intro c h
    rw [pyStrip_data, List.head?_reverse] at h
    obtain ⟨t, ht⟩ := List.dropWhile_suffix (l := (s.data.dropWhile isWS).reverse) isWS
    have h2 : ((s.data.dropWhile isWS).reverse).getLast? = some c := by
      rw [← ht, List.getLast?_append, h]; rfl
    rw [List.getLast?_reverse] at h2
    exact head_dropWhile_false isWS _ c h2
  · intro c h
    rw [pyStrip_data, List.getLast?_reverse] at h
    exact head_dropWhile_false isWS _ c h

theorem pyStrip_append_suffix (y n : String) (c0 c1 : Char)
    (hc0 : n.data.head? = some c0) (hw0 : isWS c0 = false)
    (hc1 : n.data.getLast? = some c1) (hw1 : isWS c1 = false) :
    ∃ pre : String, pyStrip (y ++ n) = pre ++ n := by
  obtain ⟨nd, hn⟩ : ∃ t, n.data = c0 :: t := by
    cases hx : n.data with
    | nil => rw [hx] at hc0; simp at hc0
    | cons a t =>
      rw [hx, List.head?_cons, Option.some.injEq] at hc0
      exact ⟨t, by rw [hc0]⟩
  have hdropn : n.data.dropWhile isWS = n.data := by
    rw [hn, List.dropWhile_cons, if_neg (by rw [hw0]; exact Bool.false_ne_true)]
  have key : ∃ z : List Char, (y ++ n).data.dropWhile isWS = z ++ n.data := by
    rw [String.data_append, List.dropWhile_append]
    by_cases he : (y.data.dropWhile isWS).isEmpty = true
    · exact ⟨[], by rw [if_pos he, hdropn]; simp⟩
    · exact ⟨y.data.dropWhile isWS, by rw [if_neg he]⟩
  obtain ⟨z, hz⟩ := key
  have hrev : ∃ u, n.data.reverse = c1 :: u := by
    cases hx : n.data.reverse with
    | nil => rw [← List.head?_reverse, hx] at hc1; simp at hc1
    | cons a t =>
      have : (n.data.reverse).head? = some c1 := by rw [List.head?_reverse]; exact hc1
      rw [hx, List.head?_cons, Option.some.injEq] at this
      exact ⟨t, by rw [this]⟩
  obtain ⟨u, hu⟩ := hrev
  refine ⟨⟨z⟩, String.ext ?_⟩
  rw [String.data_append, pyStrip_data, hz]
  have : (z ++ n.data).reverse.dropWhile isWS = (z ++ n.data).reverse := by
    rw [List.reverse_append, hu, List.cons_append, List.dropWhile_cons,
      if_neg (by rw [hw1]; exact Bool.false_ne_true)]
  rw [this, List.reverse_reverse]

theorem timeoutNotice_head (t : Nat) :
    (timeoutNotice t).data.head? = some 'E' := by
  have h1 : ("Execution timed out after " : String).data =
      'E' :: "xecution timed out after ".data := rfl
  rw [timeoutNotice, String.data_append, String.data_append, h1]
  rfl

theorem timeoutNotice_last (t : Nat) :
    (timeoutNotice t).data.getLast? = some '.' := by
  rw [timeoutNotice, String.data_append, List.getLast?_append]
  rfl

theorem splitLinesAux_append_newline (l₂ : List Char) :
    ∀ (l₁ acc : List Char),
      splitLinesAux (l₁ ++ '\n' :: l₂) acc =
        splitLinesAux l₁ acc ++ splitLinesAux l₂ [] := by
  intro l₁
  induction l₁ with
  | nil => intro acc; simp [splitLinesAux]
  | cons c rest ih =>
    intro acc
    by_cases h : c = '\n' <;>
      simp [splitLinesAux, h, ih]

theorem splitLinesAux_ne_nil (l acc : List Char) : splitLinesAux l acc ≠ [] := by
  induction l generalizing acc with
  | nil => simp [splitLinesAux]
  | cons c rest ih =>
    by_cases h : c = '\n' <;> simp [splitLinesAux, h, ih]

theorem joinLines_cons_of_ne_nil (a : String) (ls : List String) (h : ls ≠ []) :
    joinLines (a :: ls) = a ++ "\n" ++ joinLines ls := by
  cases ls with
  | nil => exact absurd rfl h
  | cons b t => rfl

theorem joinLines_splitLinesAux :
    ∀ (l acc : List Char),
      joinLines (splitLinesAux l acc) = String.mk acc.reverse ++ String.mk l := by
  intro l
  induction l with
  | nil =>
    intro acc
    refine String.ext ?_
    simp [splitLinesAux, joinLines, String.data_append]
  | cons c rest ih =>
    intro acc
    by_cases h : c = '\n'
    · subst h
      rw [show splitLinesAux ('\n' :: rest) acc =
            String.mk acc.reverse :: splitLinesAux rest [] by simp [splitLinesAux],
        joinLines_cons_of_ne_nil _ _ (splitLinesAux_ne_nil rest []), ih []]
      refine String.ext ?_
      simp [String.data_append]
    · rw [show splitLinesAux (c :: rest) acc = splitLinesAux rest (c :: acc) by
          simp [splitLinesAux, h],
        ih (c :: acc)]
      refine String.ext ?_
      simp [String.data_append]

theorem joinLines_splitLines (s : String) : joinLines (splitLines s) = s := by
  rw [splitLines, joinLines_splitLinesAux s.data []]
  refine String.ext ?_
  simp [String.data_append]

theorem splitLines_append_newline (a b : String) :
    splitLines (a ++ "\n" ++ b) = splitLines a ++ splitLines b := by
  rw [splitLines, String.data_append, String.data_append]
  have h : (a.data ++ ("\n" : String).data) ++ b.data = a.data ++ '\n' :: b.data := by
    simp
  rw [h, splitLinesAux_append_newline b.data a.data []]
  rfl

theorem takeWhile_middle {α : Type} (p : α → Bool) :
    ∀ (a : List α) (y : α) (b : List α), (∀ x ∈ a, p x = true) → p y = false →
      (a ++ y :: b).takeWhile p = a := by
  intro a
  induction a with
  | nil =>
    intro y b _ hy
    simp [List.takeWhile_cons, hy]
  | cons x a' ih =>
    intro y b ha hy
    rw [List.cons_append, List.takeWhile_cons,
      if_pos (ha x (List.mem_cons_self x a')), ih y b (fun z hz => ha z (List.mem_cons_of_mem x hz)) hy]

theorem splitLines_goScript (code : String) :
    splitLines (goScript code) =
      "cat <<\x27EOF\x27 >/workspace/main.go" ::
        (splitLines code ++ ["EOF", "cd /workspace && go run /workspace/main.go"]) := by
  have hg : goScript code =
      "cat <<\x27EOF\x27 >/workspace/main.go" ++ "\n" ++
        (code ++ "\n" ++ ("EOF" ++ "\n" ++ "cd /workspace && go run /workspace/main.go")) := by
    have e1 : ("cat <<\x27EOF\x27 >/workspace/main.go\n" : String).data
        = ("cat <<\x27EOF\x27 >/workspace/main.go" : String).data ++ ('\n' :: []) := rfl
    have e2 : ("EOF\n" : String).data = 'E' :: 'O' :: 'F' :: '\n' :: [] := rfl
    have e3 : ("EOF" : String).data = 'E' :: 'O' :: 'F' :: [] := rfl
    have e4 : ("\n" : String).data = '\n' :: [] := rfl
    refine String.ext ?_
    simp only [goScript, String.data_append, e1, e2, e3, e4, List.append_assoc,
      List.cons_append, List.nil_append]
  rw [hg, splitLines_append_newline, splitLines_append_newline, splitLines_append_newline]
  rfl

theorem heredocWritten_goScript (code : String) (h : "EOF" ∉ splitLines code) :
    heredocWritten (goScript code) = code := by
  rw [heredocWritten, splitLines_goScript]
  have hd : (("cat <<\x27EOF\x27 >/workspace/main.go" : String) ::
      (splitLines code ++ ["EOF", "cd /workspace && go run /workspace/main.go"])).drop 1 =
      splitLines code ++ "EOF" :: ["cd /workspace && go run /workspace/main.go"] := rfl
  rw [hd, takeWhile_middle _ (splitLines code) "EOF" _
      (fun x hx => by
        simp only [decide_eq_true_eq]
        exact fun e => h (e ▸ hx))
      (by decide),
    joinLines_splitLines]

theorem execute_code_fsAfter (o : Oracle) (fs : List String) (code : String)
    (language : Option String) (t : Nat) (sid : Option String) :
    (execute_code o fs code language t sid).fsAfter = (ensureWorkspace fs sid).2 := by
  unfold execute_code
  dsimp only
  split
  · split
    · rfl
    · split <;> rfl
  · rfl

/-! ### The claims -/

/-- C8 (confirmed): workspace resolution is a pure function of the session
id — an absent (or empty, which Python `or` treats alike) `session_id` maps
to the literal `default` directory under the fixed sandbox root; creation
via `mkdir(parents=True, exist_ok=True)` is idempotent — re-running it for
the same session id yields the same directory and the same filesystem, with
the directory present; and `execute_code` never deletes a directory on any
path — the filesystem after any call contains everything it contained
before, plus the session workspace. -/
theorem c8_workspace_pure_idempotent_nodelete :
    workspacePath none = "backend/data/sandboxes/default" ∧
    (∀ (sid : Option String) (fs : List String),
      (ensureWorkspace (ensureWorkspace fs sid).2 sid).1 = (ensureWorkspace fs sid).1 ∧
      (ensureWorkspace (ensureWorkspace fs sid).2 sid).2 = (ensureWorkspace fs sid).2 ∧
      (ensureWorkspace fs sid).1 ∈ (ensureWorkspace fs sid).2) ∧
    (∀ (o : Oracle) (fs : List String) (code : String) (language : Option String)
      (t : Nat) (sid : Option String),
      fs ⊆ (execute_code o fs code language t sid).fsAfter ∧
      workspacePath sid ∈ (execute_code o fs code language t sid).fsAfter) := by
  refine ⟨by decide, ?_, ?_⟩
  · intro sid fs
    by_cases h : workspacePath sid ∈ fs
    · refine ⟨rfl, ?_, ?_⟩ <;> simp [ensureWorkspace, h]
    · refine ⟨rfl, ?_, ?_⟩ <;> simp [ensureWorkspace, h]
  · intro o fs code language t sid
    rw [execute_code_fsAfter]
    by_cases h : workspacePath sid ∈ fs
    · exact ⟨by simp [ensureWorkspace, h], by simp [ensureWorkspace, h]⟩
    · exact ⟨by simp [ensureWorkspace, h, List.subset_cons_self],
        by simp [ensureWorkspace, h]⟩

/-- C10 (confirmed): language resolution lowercases the tag before the
`LANG_CONFIG` lookup — resolving `some tag` is the same as looking up the
lowercased tag — so `Python` and `PYTHON` resolve to the python profile;
and a `None` or empty-string language is treated identically to the default
`python` tag (Python `language or "python"`). -/
theorem c10_language_normalization :
    (∀ tag : String, resolveProfile (some tag) = langConfigGet (pyLower tag)) ∧
    resolveProfile none = resolveProfile (some "python") ∧
    resolveProfile (some "") = resolveProfile (some "python") ∧
    resolveProfile (some "Python") = resolveProfile (some "python") ∧
    resolveProfile (some "PYTHON") = resolveProfile (some "python") := by
  refine ⟨?_, by decide, by decide, by decide, by decide⟩
  intro tag
  by_cases h : tag = ""
  · subst h; decide
  · simp [resolveProfile, pyOrStr, h]

/-- C4 (confirmed): a language tag whose normalized form has no entry in
`LANG_CONFIG` resolves to the default python profile (python image, inline
`python -c` invocation), and the call runs rather than being rejected: the
container is launched with `["python", "-c", code]` and — here shown
against an all-successful oracle — the call returns a normal result. -/
theorem c4_unrecognized_tag_falls_back (language : Option String)
    (fs : List String) (code : String) (t : Nat) (sid : Option String)
    (h : List.lookup (pyLower (pyOrStr language "python")) LANG_CONFIG = none) :
    resolveProfile language = ("python:3.11-slim", ["python", "-c"]) ∧
    (execute_code oracleAllOk fs code language t sid).launchCmd =
      some ["python", "-c", code] ∧
    (execute_code oracleAllOk fs code language t sid).outcome =
      .ret ⟨"", "", 0⟩ := by
  have hprof : resolveProfile language = ("python:3.11-slim", ["python", "-c"]) := by
    rw [resolveProfile, langConfigGet, h]
  have hg : pyLower (pyOrStr language "python") ≠ "go" := by
    intro e; rw [e] at h; exact absurd h (by decide)
  have hb : pyLower (pyOrStr language "python") ≠ "bash" := by
    intro e; rw [e] at h; exact absurd h (by decide)
  have hs : pyLower (pyOrStr language "python") ≠ "shell" := by
    intro e; rw [e] at h; exact absurd h (by decide)
  refine ⟨hprof, ?_, rfl⟩
  have hcmd : (execute_code oracleAllOk fs code language t sid).launchCmd =
      some (buildCmd (pyLower (pyOrStr language "python"))
        (langConfigGet (pyLower (pyOrStr language "python"))).2 code) := rfl
  rw [hcmd, langConfigGet, h, buildCmd, if_neg hg,
    if_neg (by rintro (e | e); exacts [hb e, hs e])]
  rfl

/-- C4 witness: the unrecognized tag `ruby` executes with the python
profile. -/
theorem c4_witness :
    resolveProfile (some "ruby") = ("python:3.11-slim", ["python", "-c"]) ∧
    (execute_code oracleAllOk [] "puts 1" (some "ruby") 10 none).launchCmd =
      some ["python", "-c", "puts 1"] ∧
    (execute_code oracleAllOk [] "puts 1" (some "ruby") 10 none).outcome =
      .ret ⟨"", "", 0⟩ :=
  c4_unrecognized_tag_falls_back (some "ruby") [] "puts 1" 10 none (by decide)

/-- C9 (confirmed): when the container runs to natural exit and the runtime
boundary reports a (nonzero) status, the returned `exit_code` is exactly
that status and the captured container stderr is returned (stripped). -/
theorem c9_runtime_exit_status (o : Oracle) (fs : List String) (code : String)
    (language : Option String) (t : Nat) (sid : Option String) (s : Int)
    (so se : String)
    (hI : ensureImage o = .ok ()) (hR : o.run = .ok ())
    (hW : o.wait = .ok (some s)) (hs : s ≠ 0)
    (hLO : o.logsOut = .ok so) (hLE : o.logsErr = .ok se) :
    (execute_code o fs code language t sid).outcome =
      .ret ⟨pyStrip so, pyStrip se, s⟩ := by
  unfold execute_code tryBody
  rw [hI, hR, hW]
  dsimp only [handleExc]
  rw [if_pos rfl, hLO, hLE]
  dsimp only
  rw [if_neg (by exact Bool.false_ne_true)]
  have : appendNL "" se = se := by
    rw [appendNL, if_pos rfl]
    exact String.ext (by rw [String.data_append]; rfl)
  rw [this]
  rfl

/-- C3 (confirmed): when the run-wait phase raises `ReadTimeout` on a
launched container, `execute_code` issues the hard `container.kill()`,
records exit code 124, and the returned stderr is the captured container
stderr with the synthesized notice `Execution timed out after {t}s.`
appended after it (newline-separated), so the notice — which spells out the
timeout duration — is a suffix of the returned stderr. -/
theorem c3_timeout_kill_124_notice (o : Oracle) (fs : List String)
    (code : String) (language : Option String) (t : Nat) (sid : Option String)
    (so se : String)
    (hI : ensureImage o = .ok ()) (hR : o.run = .ok ())
    (hW : o.wait = .exc .readTimeout)
    (hLO : o.logsOut = .ok so) (hLE : o.logsErr = .ok se) :
    (execute_code o fs code language t sid).killIssued = true ∧
    (execute_code o fs code language t sid).outcome =
      .ret ⟨pyStrip so, pyStrip (appendNL se (timeoutNotice t)), 124⟩ ∧
    ∃ pre, pyStrip (appendNL se (timeoutNotice t)) = pre ++ timeoutNotice t := by
  have hmain : (execute_code o fs code language t sid) =
      ⟨.ret ⟨pyStrip so, pyStrip (appendNL se (timeoutNotice t)), 124⟩,
        true, true, true, resOk o.remove, true,
        some (buildCmd (pyLower (pyOrStr language "python"))
          (langConfigGet (pyLower (pyOrStr language "python"))).2 code),
        (ensureWorkspace fs sid).2⟩ := by
    unfold execute_code tryBody
    rw [hI, hR, hW]
    dsimp only [handleExc]
    rw [if_pos rfl, hLO, hLE]
    dsimp only
    rw [if_pos rfl]
    have h0 : appendNL "" se = se := by
      rw [appendNL, if_pos rfl]
      exact String.ext (by rw [String.data_append]; rfl)
    rw [h0]
    rfl
  refine ⟨by rw [hmain], by rw [hmain], ?_⟩
  have := pyStrip_append_suffix (if se = "" then "" else se ++ "\n")
    (timeoutNotice t) 'E' '.' (timeoutNotice_head t) (by decide)
    (timeoutNotice_last t) (by decide)
  simpa [appendNL] using this

/-- C3 witness: with a 2-second timeout and container stderr `boom`, the
call kills the container and returns exit code 124 with the notice appended
after `boom`. -/
theorem c3_witness :
    (execute_code oracleTimeout [] "while True: pass" (some "python") 2
      none).killIssued = true ∧
    (execute_code oracleTimeout [] "while True: pass" (some "python") 2
      none).outcome =
      .ret ⟨pyStrip "", pyStrip (appendNL "boom" (timeoutNotice 2)), 124⟩ ∧
    ∃ pre, pyStrip (appendNL "boom" (timeoutNotice 2)) = pre ++ timeoutNotice 2 :=
  c3_timeout_kill_124_notice oracleTimeout [] "while True: pass"
    (some "python") 2 none "" "boom" rfl rfl rfl rfl rfl

theorem execute_code_removal (o : Oracle) (fs : List String) (code : String)
    (language : Option String) (t : Nat) (sid : Option String) :
    (execute_code o fs code language t sid).removeIssued =
      (execute_code o fs code language t sid).containerCreated ∧
    (execute_code o fs code language t sid).removeSucceeded =
      ((execute_code o fs code language t sid).containerCreated &&
        resOk o.remove) := by
  unfold execute_code
  dsimp only
  split
  · split
    · exact ⟨rfl, by simp⟩
    · split
      · exact ⟨rfl, by simp⟩
      · exact ⟨rfl, by simp⟩
  · exact ⟨rfl, by simp⟩

/-- C1 (corrected): on every exit path of `execute_code` on which a
container was created — normal completion, timeout, wait failure, even a
propagating log-fetch failure — the `finally` block issues the forced
`container.remove(force=True)` before control leaves the function; the
removal itself is best-effort, succeeding exactly when the daemon's remove
call succeeds, so a container is retained only if that forced removal
itself fails. -/
theorem c1_removal_on_every_path (o : Oracle) (fs : List String)
    (code : String) (language : Option String) (t : Nat) (sid : Option String)
    (h : (execute_code o fs code language t sid).containerCreated = true) :
    (execute_code o fs code language t sid).removeIssued = true ∧
    (execute_code o fs code language t sid).removeSucceeded = resOk o.remove := by
  obtain ⟨h1, h2⟩ := execute_code_removal o fs code language t sid
  rw [h] at h1 h2
  exact ⟨h1, by rw [h2, Bool.true_and]⟩

/-- C1 witness: on the all-successful oracle a container is created and its
forced removal is issued and succeeds. -/
theorem c1_witness :
    (execute_code oracleAllOk [] "print(1)" (some "python") 10
      none).removeIssued = true ∧
    (execute_code oracleAllOk [] "print(1)" (some "python") 10
      none).removeSucceeded = resOk oracleAllOk.remove :=
  c1_removal_on_every_path oracleAllOk [] "print(1)" (some "python") 10 none rfl

/-- C1 counterexample: when the daemon refuses the forced removal, the call
still returns a normal result while the created container was not removed —
so a container created for a call can be retained after the call, refuting
the unconditional "is removed ... never retained" reading. -/
theorem c1_counterexample :
    (execute_code oracleRemoveFails [] "print(1)" (some "python") 10
      none).containerCreated = true ∧
    (execute_code oracleRemoveFails [] "print(1)" (some "python") 10
      none).removeSucceeded = false ∧
    (execute_code oracleRemoveFails [] "print(1)" (some "python") 10
      none).outcome = .ret ⟨"", "", 0⟩ :=
  ⟨rfl, rfl, rfl⟩

/-- C2 (corrected): exceptions raised while provisioning, launching or
waiting are caught — whenever both log fetches succeed (or no container
exists), the call returns a well-formed result; and an unexpected failure
in the body is converted to exit code -1 with a descriptive
`Unhandled error:` stderr.  (The log-fetch step of the finalization block,
however, has no `except` clause, so its failures propagate — see the
counterexample.) -/
theorem c2_outer_boundary_catches (o : Oracle) (fs : List String)
    (code : String) (language : Option String) (t : Nat) (sid : Option String)
    (so se : String)
    (hLO : o.logsOut = .ok so) (hLE : o.logsErr = .ok se) :
    (∃ r, (execute_code o fs code language t sid).outcome = .ret r) ∧
    (∀ msg, ensureImage o = .ok () → o.run = .ok () →
      o.wait = .exc (.otherExc msg) →
      (execute_code o fs code language t sid).outcome =
        .ret ⟨pyStrip so, pyStrip (appendNL ("Unhandled error: " ++ msg) se), -1⟩) := by
  constructor
  · unfold execute_code
    dsimp only
    split
    · rw [hLO, hLE]
      exact ⟨_, rfl⟩
    · exact ⟨_, rfl⟩
  · intro msg hI hR hW
    unfold execute_code tryBody
    rw [hI, hR, hW]
    dsimp only [handleExc]
    rw [if_pos rfl, hLO, hLE]
    dsimp only
    rw [if_neg (by exact Bool.false_ne_true)]
    rfl

/-- C2 witness: an unexpected exception from `container.wait` is converted
to exit code -1 and an `Unhandled error:` stderr. -/
theorem c2_witness :
    (execute_code oracleUnhandled [] "print(1)" (some "python") 10
      none).outcome =
      .ret ⟨pyStrip "", pyStrip (appendNL ("Unhandled error: " ++ "surprise") ""),
        -1⟩ :=
  (c2_outer_boundary_catches oracleUnhandled [] "print(1)" (some "python") 10
    none "" "" rfl rfl).2 "surprise" rfl rfl rfl

/-- C2 counterexample: a failure while fetching the container's logs in the
finalization block propagates out of `execute_code` (the finalization `try`
has only a `finally`, no `except`), so the function does not always return
a result dict — refuting "never propagates an exception to its caller".
Teardown is still attempted first. -/
theorem c2_counterexample :
    (execute_code oracleLogsFail [] "print(1)" (some "python") 10
      none).outcome = .raise (.apiError "log fetch failed") ∧
    (execute_code oracleLogsFail [] "print(1)" (some "python") 10
      none).removeIssued = true :=
  ⟨rfl, rfl⟩

/-- C5 (corrected): each orchestrator-synthesized notice is joined to the
raw container stderr with a newline, but only the timeout notice is placed
after the raw stderr; a wait-phase infra-error message (`Docker API
error: ...`) is recorded before the logs are fetched and therefore ends up
before the raw container stderr, not after it. -/
theorem c5_stderr_order (o : Oracle) (fs : List String) (code : String)
    (language : Option String) (t : Nat) (sid : Option String) (so se : String)
    (hI : ensureImage o = .ok ()) (hR : o.run = .ok ())
    (hLO : o.logsOut = .ok so) (hLE : o.logsErr = .ok se) :
    (∀ msg, o.wait = .exc (.apiError msg) →
      (execute_code o fs code language t sid).outcome =
        .ret ⟨pyStrip so, pyStrip (appendNL ("Docker API error: " ++ msg) se),
          -1⟩) ∧
    (o.wait = .exc .readTimeout →
      (execute_code o fs code language t sid).outcome =
        .ret ⟨pyStrip so, pyStrip (appendNL se (timeoutNotice t)), 124⟩) := by
  constructor
  · intro msg hW
    unfold execute_code tryBody
    rw [hI, hR, hW]
    dsimp only [handleExc]
    rw [if_pos rfl, hLO, hLE]
    dsimp only
    rw [if_neg (by exact Bool.false_ne_true)]
    rfl
  · intro hW
    unfold execute_code tryBody
    rw [hI, hR, hW]
    dsimp only [handleExc]
    rw [if_pos rfl, hLO, hLE]
    dsimp only
    rw [if_pos rfl]
    have h0 : appendNL "" se = se := by
      rw [appendNL, if_pos rfl]
      exact String.ext (by rw [String.data_append]; rfl)
    rw [h0]
    rfl

/-- C5 witness: wait fails with `APIError` `E` while the container already
wrote `prog` to stderr; the synthesized message is assembled before the raw
stderr. -/
theorem c5_witness :
    (execute_code oracleInfraWait [] "x" (some "python") 10 none).outcome =
      .ret ⟨pyStrip "", pyStrip (appendNL ("Docker API error: " ++ "E") "prog"),
        -1⟩ :=
  (c5_stderr_order oracleInfraWait [] "x" (some "python") 10 none "" "prog"
    rfl rfl rfl rfl).1 "E" rfl

/-- C5 counterexample: the assembled stderr `Docker API error: E\nprog`
places the synthesized infra-error notice first and the raw container
stderr `prog` after it — it does not start with the raw container stderr —
refuting "raw in-environment stderr first, every synthesized notice after
it". -/
theorem c5_counterexample :
    (execute_code oracleInfraWait [] "x" (some "python") 10 none).outcome =
      .ret ⟨"", "Docker API error: E\nprog", -1⟩ ∧
    (∀ rest : String, ("Docker API error: E\nprog" : String) ≠ "prog" ++ rest) := by
  refine ⟨rfl, ?_⟩
  intro rest h
  have hd : ("Docker API error: E\nprog" : String).data =
      ("prog" : String).data ++ rest.data := by
    have h2 := congrArg String.data h
    rwa [String.data_append] at h2
  have h1 : (("Docker API error: E\nprog" : String).data).head? =
      (("prog" : String).data ++ rest.data).head? := by rw [hd]
  have h2 : (some 'D' : Option Char) = some 'p' := h1
  exact absurd h2 (by decide)

/-- C9 witness: a program that exits with status 3 and stderr `trace`
yields `exit_code = 3` and that stderr. -/
theorem c9_witness :
    (execute_code oracleExit3 [] "import sys; sys.exit(3)" (some "python") 10
      none).outcome = .ret ⟨pyStrip "", pyStrip "trace", 3⟩ :=
  c9_runtime_exit_status oracleExit3 [] "import sys; sys.exit(3)"
    (some "python") 10 none 3 "" "trace" rfl rfl rfl (by decide) rfl rfl

/-- C7 (confirmed): every returned result has `stdout` and `stderr` free of
leading and trailing whitespace (both are passed through `strip()`), and
`exit_code` is always populated: it equals the exit status recorded by the
`try/except` machinery when one exists, with -1 as the fallback sentinel
(`exit_code if exit_code is not None else -1`). -/
theorem c7_result_trimmed_exit_code (o : Oracle) (fs : List String)
    (code : String) (language : Option String) (t : Nat) (sid : Option String)
    (r : ExecResult)
    (h : (execute_code o fs code language t sid).outcome = .ret r) :
    noEdgeWS r.stdout ∧ noEdgeWS r.stderr ∧
    r.exit_code = (recordedExitCode o).getD (-1) := by
  unfold execute_code at h
  dsimp only at h
  split at h
  · split at h
    · simp at h
    · split at h
      · simp at h
      · rw [show ∀ x : ExecResult, (⟨PyOutcome.ret x, true, _, true, resOk o.remove,
            true, _, _⟩ : CallRecord).outcome = PyOutcome.ret x from fun _ => rfl,
          PyOutcome.ret.injEq] at h
        subst h
        exact ⟨pyStrip_noEdgeWS _, pyStrip_noEdgeWS _, rfl⟩
  · rw [show ∀ x : ExecResult, (⟨PyOutcome.ret x, false, _, false, false,
        true, _, _⟩ : CallRecord).outcome = PyOutcome.ret x from fun _ => rfl,
      PyOutcome.ret.injEq] at h
    subst h
    exact ⟨pyStrip_noEdgeWS _, pyStrip_noEdgeWS _, rfl⟩

/-- C7 witness: the empty stdout/stderr of a successful call carry no edge
whitespace and the exit code is the recorded status 0. -/
theorem c7_witness :
    noEdgeWS (ExecResult.mk "" "" 0).stdout ∧
    noEdgeWS (ExecResult.mk "" "" 0).stderr ∧
    (ExecResult.mk "" "" 0).exit_code = (recordedExitCode oracleAllOk).getD (-1) :=
  c7_result_trimmed_exit_code oracleAllOk [] "print(1)" (some "python") 10 none
    ⟨"", "", 0⟩ rfl

/-- C6 (corrected): for the `go` tag the container command is
`sh -c` of a script that writes the code through a quoted heredoc into the
fixed file `/workspace/main.go` and then invokes the build-and-run command
`cd /workspace && go run /workspace/main.go` against it; the code lands in
the file verbatim for every code text none of whose lines equals the
heredoc delimiter `EOF` — a line equal to `EOF` truncates the write (see
the counterexample), so "verbatim for every code text" does not hold. -/
theorem c6_go_write_then_run (code : String) (fs : List String) (t : Nat)
    (sid : Option String) (h : "EOF" ∉ splitLines code) :
    (execute_code oracleAllOk fs code (some "go") t sid).launchCmd =
      some ["sh", "-c", goScript code] ∧
    heredocWritten (goScript code) = code ∧
    ∃ pre, goScript code = pre ++ "\ncd /workspace && go run /workspace/main.go" := by
  refine ⟨rfl, heredocWritten_goScript code h, ?_⟩
  refine ⟨"cat <<\x27EOF\x27 >/workspace/main.go\n" ++ (code ++ "\n") ++ "EOF",
    String.ext ?_⟩
  have e1 : ("EOF\n" : String).data = ("EOF" : String).data ++ ('\n' :: []) := rfl
  have e2 : ("\ncd /workspace && go run /workspace/main.go" : String).data =
      '\n' :: ("cd /workspace && go run /workspace/main.go" : String).data := rfl
  simp only [goScript, String.data_append, e1, e2, List.append_assoc,
    List.cons_append, List.nil_append]

/-- C6 witness: a multi-line code text with no `EOF` line is written
verbatim. -/
theorem c6_witness :
    (execute_code oracleAllOk [] "package main\nvar x = 1\nEOF trailing"
      (some "go") 10 none).launchCmd =
      some ["sh", "-c", goScript "package main\nvar x = 1\nEOF trailing"] ∧
    heredocWritten (goScript "package main\nvar x = 1\nEOF trailing") =
      "package main\nvar x = 1\nEOF trailing" ∧
    ∃ pre, goScript "package main\nvar x = 1\nEOF trailing" =
      pre ++ "\ncd /workspace && go run /workspace/main.go" :=
  c6_go_write_then_run "package main\nvar x = 1\nEOF trailing" [] 10 none
    (by decide)

/-- C6 counterexample: the code text `a\nEOF\nb` is not written verbatim —
the heredoc stops at its `EOF` line, so the file receives just `a` — even
though the launch command is exactly the documented write-then-run shape. -/
theorem c6_counterexample :
    buildCmd "go" (langConfigGet "go").2 "a\nEOF\nb" =
      ["sh", "-c", goScript "a\nEOF\nb"] ∧
    heredocWritten (goScript "a\nEOF\nb") = "a" ∧
    ("a" : String) ≠ "a\nEOF\nb" := by
  exact ⟨rfl, by decide, by decide⟩

end Executor
